import Mathlib

/-!
Shallow embedding of the session-lifecycle subsystem and related helpers of
the memri-book photo-album server, together with proofs of its spec claims.

Timestamps are modelled as natural numbers (milliseconds since the epoch,
the value of `Date.getTime()` in the source).  The Postgres `sessions`
table is modelled as a list of rows in insertion order; `SELECT ... LIMIT 1`
becomes `List.find?`, `DELETE ... WHERE` becomes `List.filter`, and the
drizzle `onConflictDoUpdate` upsert becomes a map-or-append.
-/

namespace Memri

/-- The `SessionData` interface of `databaseSessionStore.ts` / `auth.ts`:
`{ userId, username, expiresAt }`. -/
structure SessionData where
  userId : Nat
  username : String
  expiresAt : Nat
deriving DecidableEq, Repr

/-- One row of the `sessions` table (shared schema): `id` is the token
(primary key), plus `userId`, `username`, `expiresAt`, `createdAt`,
`updatedAt`. -/
structure SessionRow where
  id : String
  userId : Nat
  username : String
  expiresAt : Nat
  createdAt : Nat
  updatedAt : Nat
deriving DecidableEq, Repr

/-- The `sessions` table, in row order. -/
abbrev SessionDb := List SessionRow

/-- `DatabaseSessionStore.set`: drizzle insert with `onConflictDoUpdate` on
the primary key `id`.  If a row with this id exists, its `userId`,
`username`, `expiresAt` and `updatedAt` are overwritten (keeping
`createdAt`); otherwise a fresh row is appended with
`createdAt = updatedAt = now`. -/
def dssSet (db : SessionDb) (sessionId : String) (d : SessionData) (now : Nat) : SessionDb :=
  if db.any (fun r => r.id == sessionId) then
    db.map (fun r =>
      if r.id == sessionId then
        { r with userId := d.userId, username := d.username,
                 expiresAt := d.expiresAt, updatedAt := now }
      else r)
  else
    db ++ [{ id := sessionId, userId := d.userId, username := d.username,
             expiresAt := d.expiresAt, createdAt := now, updatedAt := now }]

/-- `DatabaseSessionStore.delete`: `DELETE FROM sessions WHERE id = sessionId`,
returning `rowCount > 0`.  Errors are caught and turned into `false` in the
source; the embedding is total, so no error branch is needed. -/
def dssDelete (db : SessionDb) (sessionId : String) : SessionDb × Bool :=
  (db.filter (fun r => !(r.id == sessionId)), db.any (fun r => r.id == sessionId))

/-- `DatabaseSessionStore.get`: select the row by id (`LIMIT 1`); a miss
returns `undefined`; a hit with `expiresAt < new Date()` (strict `<` on
`Date`s) deletes the row and returns `undefined`; otherwise the projection
`{ userId, username, expiresAt }` is returned and the table is untouched.
The returned pair is (result, table state after the call). -/
def dssGet (db : SessionDb) (sessionId : String) (now : Nat) :
    Option SessionData × SessionDb :=
  match db.find? (fun r => r.id == sessionId) with
  | none => (none, db)
  | some r =>
    if r.expiresAt < now then
      (none, (dssDelete db sessionId).1)
    else
      (some { userId := r.userId, username := r.username, expiresAt := r.expiresAt }, db)

/-- `DatabaseSessionStore.cleanExpiredSessions`:
`DELETE FROM sessions WHERE expiresAt < new Date()` (strict `<`), returning
the table after the sweep together with the number of deleted rows
(the logged `rowCount`). -/
def cleanExpiredSessions (db : SessionDb) (now : Nat) : SessionDb × Nat :=
  ((db.filter (fun r => !(r.expiresAt < now))),
   (db.filter (fun r => r.expiresAt < now)).length)

/-- `SESSION_DURATION` in `auth.ts`: 7 days in milliseconds. -/
def SESSION_DURATION : Nat := 7 * 24 * 60 * 60 * 1000

/-- `SESSION_REFRESH_THRESHOLD` in `auth.ts`: 24 hours in milliseconds. -/
def SESSION_REFRESH_THRESHOLD : Nat := 24 * 60 * 60 * 1000

/-- `AuthService.createSession`: computes `expiresAt = now + SESSION_DURATION`
and upserts the record under the generated token.  Token generation
(`Math.random`) is modelled by passing the generated `sessionId` in;
the function returns the new table (the source also returns the token,
which is the argument itself). -/
def authCreateSession (db : SessionDb) (sessionId : String) (userId : Nat)
    (username : String) (now : Nat) : SessionDb :=
  dssSet db sessionId
    { userId := userId, username := username, expiresAt := now + SESSION_DURATION } now

/-- `AuthService.getSession`: fetch through `databaseSessionStore.get`
(which performs the lazy-expiry delete), then, if
`expiresAt - now < SESSION_REFRESH_THRESHOLD` (a possibly negative JS
number difference, hence `Int` subtraction), extend `expiresAt` to
`now + SESSION_DURATION`, persist via `set`, and return the refreshed
record.  The returned pair is (result, table state after the call). -/
def authGetSession (db : SessionDb) (sessionId : String) (now : Nat) :
    Option SessionData × SessionDb :=
  match dssGet db sessionId now with
  | (none, db1) => (none, db1)
  | (some s, db1) =>
    if (s.expiresAt : Int) - (now : Int) < (SESSION_REFRESH_THRESHOLD : Int) then
      let s' : SessionData := { s with expiresAt := now + SESSION_DURATION }
      (some s', dssSet db1 sessionId s' now)
    else
      (some s, db1)

/-! Helper lemmas about `find?`, `filter`, `any` and `map` on lists, used to
reason about the table-level operations above. -/

theorem find?_filter_not {α : Type} (p : α → Bool) (l : List α) :
    (l.filter (fun x => !(p x))).find? p = none := by
  induction l with
  | nil => rfl
  | cons a l ih =>
    by_cases h : p a = true
    · simp [List.filter_cons, h, ih]
    · simp only [Bool.not_eq_true] at h
      simp [List.filter_cons, h, List.find?_cons, ih]

theorem any_filter_not {α : Type} (p : α → Bool) (l : List α) :
    (l.filter (fun x => !(p x))).any p = false := by
  induction l with
  | nil => rfl
  | cons a l ih =>
    by_cases h : p a = true
    · simp [List.filter_cons, h, ih]
    · simp only [Bool.not_eq_true] at h
      simp [List.filter_cons, h, ih]

theorem find?_map_ite {α : Type} (p : α → Bool) (g : α → α)
    (hg : ∀ x, p (g x) = p x) (l : List α) :
    (l.map (fun x => if p x then g x else x)).find? p = (l.find? p).map g := by
  induction l with
  | nil => rfl
  | cons a l ih =>
    by_cases h : p a = true
    · simp [h, List.find?_cons, hg]
    · simp only [Bool.not_eq_true] at h
      simp [h, List.find?_cons, ih]

theorem find?_append_of_none {α : Type} (p : α → Bool) (l1 l2 : List α)
    (h : l1.find? p = none) : (l1 ++ l2).find? p = l2.find? p := by
  induction l1 with
  | nil => rfl
  | cons a l ih =>
    rw [List.find?_cons] at h
    cases hpa : p a with
    | false =>
      rw [hpa] at h
      simp [List.cons_append, List.find?_cons, hpa, ih h]
    | true => rw [hpa] at h; exact absurd h (by simp)

theorem find?_dssSet_self (db : SessionDb) (t : String) (d : SessionData) (now : Nat) :
    ∃ c, (dssSet db t d now).find? (fun r => r.id == t)
      = some { id := t, userId := d.userId, username := d.username,
               expiresAt := d.expiresAt, createdAt := c, updatedAt := now } := by
  unfold dssSet
  by_cases hany : db.any (fun r => r.id == t) = true
  · simp only [hany, if_pos]
    have hg : ∀ r : SessionRow,
        ((fun r : SessionRow => r.id == t)
          ({ r with userId := d.userId, username := d.username,
                    expiresAt := d.expiresAt, updatedAt := now }))
        = ((fun r : SessionRow => r.id == t) r) := fun r => rfl
    rw [find?_map_ite (fun r => r.id == t) _ hg db]
    cases hf : db.find? (fun r => r.id == t) with
    | none =>
      exfalso
      rw [List.any_eq_true] at hany
      obtain ⟨r0, hr0mem, hr0⟩ := hany
      rw [List.find?_eq_none] at hf
      exact hf r0 hr0mem hr0
    | some r1 =>
      have hid : r1.id = t := by
        have := List.find?_some hf
        simpa using this
      refine ⟨r1.createdAt, ?_⟩
      simp [hid]
  · simp only [hany, if_neg, Bool.not_eq_true]
    rw [Bool.not_eq_true] at hany
    have hnone : db.find? (fun r => r.id == t) = none := by
      cases hf : db.find? (fun r => r.id == t) with
      | none => rfl
      | some r1 =>
        exfalso
        have hmem := List.mem_of_find?_eq_some hf
        have hp := List.find?_some hf
        have : db.any (fun r => r.id == t) = true :=
          List.any_eq_true.mpr ⟨r1, hmem, hp⟩
        rw [hany] at this
        exact Bool.false_ne_true this
    refine ⟨now, ?_⟩
    rw [find?_append_of_none _ _ _ hnone]
    simp [List.find?_cons]

/-! Concrete rows used to exhibit boundary behaviour of the store. -/

/-- A stored session row whose `expiresAt` equals the lookup time used below. -/
def c1Row : SessionRow :=
  { id := "tok1", userId := 1, username := "alice",
    expiresAt := 100, createdAt := 0, updatedAt := 0 }

/-- A stored session row whose `expiresAt` equals the sweep time used below. -/
def c2Row : SessionRow :=
  { id := "tok2", userId := 2, username := "bob",
    expiresAt := 100, createdAt := 0, updatedAt := 0 }

/-- A stored session row whose `expiresAt` equals the lookup time used below. -/
def c8Row : SessionRow :=
  { id := "tok8", userId := 8, username := "carol",
    expiresAt := 100, createdAt := 0, updatedAt := 0 }

/-- C1, counterexample: the claim says a record with `expiresAt <= now` is
deleted by `get` and never returned, but `DatabaseSessionStore.get` tests
`expiresAt < new Date()` strictly, so at `now = expiresAt` (here both `100`)
the record is returned as valid and the table is left untouched. -/
theorem C1_boundary_counterexample :
    c1Row.expiresAt ≤ 100 ∧
    (dssGet [c1Row] "tok1" 100).1
      = some { userId := 1, username := "alice", expiresAt := 100 } ∧
    (dssGet [c1Row] "tok1" 100).2 = [c1Row] := by
  decide

/-- C1 (amended): on a `get` that finds the stored row, if `expiresAt < now`
(strictly) the record is deleted and `none` is returned, while whenever
`now ≤ expiresAt` the record is returned as valid with the table unchanged;
so validity is `now ≤ expiresAt`, not `now < expiresAt`. -/
theorem C1_get_lazy_expiry (db : SessionDb) (t : String) (now : Nat) (r : SessionRow)
    (hfind : db.find? (fun r => r.id == t) = some r) :
    (r.expiresAt < now →
      (dssGet db t now).1 = none ∧
      ((dssGet db t now).2.find? (fun r => r.id == t) = none)) ∧
    (now ≤ r.expiresAt →
      dssGet db t now
        = (some { userId := r.userId, username := r.username, expiresAt := r.expiresAt },
           db)) := by
  constructor
  · intro hexp
    refine ⟨?_, ?_⟩
    · simp only [dssGet, hfind, hexp, if_pos]
    · simp only [dssGet, hfind, hexp, if_pos]
      exact find?_filter_not _ db
  · intro hval
    have hnot : ¬ (r.expiresAt < now) := Nat.not_lt.mpr hval
    simp only [dssGet, hfind, hnot, if_neg, not_false_iff]

/-- A strictly expired row used to witness the amended C1. -/
def w1Row : SessionRow :=
  { id := "w1", userId := 1, username := "w", expiresAt := 50, createdAt := 0, updatedAt := 0 }

/-- C1, witness: concrete run of the amended theorem on a strictly expired
row (`expiresAt = 50`, lookup at `now = 100`): `get` answers `none` and the
row is gone from the table afterwards. -/
theorem C1_get_lazy_expiry_witness :
    (dssGet [w1Row] "w1" 100).1 = none ∧
    ((dssGet [w1Row] "w1" 100).2.find? (fun r => r.id == "w1") = none) :=
  (C1_get_lazy_expiry [w1Row] "w1" 100 w1Row (by decide)).1 (by decide)

/-- C2, counterexample: the claim says the sweep removes exactly the records
with `expiresAt <= now`, but `cleanExpiredSessions` deletes
`WHERE expiresAt < now` strictly, so a record with `expiresAt = now`
(here both `100`) survives the sweep. -/
theorem C2_sweep_boundary_counterexample :
    c2Row.expiresAt ≤ 100 ∧ (cleanExpiredSessions [c2Row] 100).1 = [c2Row] := by
  decide

/-- C2 (amended): the sweep keeps a subsequence of the table (no reordering,
no mutation of kept rows) and a row is kept iff it was present and satisfies
`now ≤ expiresAt`; equivalently it removes exactly the rows with
`expiresAt < now` (strict), not `expiresAt <= now`. -/
theorem C2_sweep_exact (db : SessionDb) (now : Nat) :
    ((cleanExpiredSessions db now).1.Sublist db) ∧
    (∀ r : SessionRow, r ∈ (cleanExpiredSessions db now).1 ↔ (r ∈ db ∧ now ≤ r.expiresAt)) := by
  constructor
  · exact List.filter_sublist db
  · intro r
    simp [cleanExpiredSessions, List.mem_filter, Nat.not_lt]

/-- C8, counterexample: the claim says that once `now >= expiresAt` a `get`
returns `None`; but at `now = expiresAt` (both `100`) the strict `<` test
does not fire, and `AuthService.getSession` even refreshes the session
instead of deleting it. -/
theorem C8_boundary_counterexample :
    c8Row.expiresAt ≤ 100 ∧ (authGetSession [c8Row] "tok8" 100).1 ≠ none := by
  decide

/-- C8 (amended): once `now > expiresAt` (strictly), `getSession` returns
`none` and deletes the row, and any later `get` on a table without the token
returns `none` and leaves the table unchanged — the deletion is permanent
and a lookup never recreates a session. -/
theorem C8_expired_get_permanent (db : SessionDb) (t : String) (now now2 : Nat)
    (r : SessionRow)
    (hfind : db.find? (fun r => r.id == t) = some r) (hexp : r.expiresAt < now) :
    (authGetSession db t now).1 = none ∧
    ((authGetSession db t now).2.find? (fun r => r.id == t) = none) ∧
    (∀ db2 : SessionDb, db2.find? (fun r => r.id == t) = none →
      authGetSession db2 t now2 = (none, db2)) := by
  refine ⟨?_, ?_, ?_⟩
  · simp only [authGetSession, dssGet, hfind, hexp, if_pos]
  · simp only [authGetSession, dssGet, hfind, hexp, if_pos]
    exact find?_filter_not _ db
  · intro db2 h2
    simp only [authGetSession, dssGet, h2]

/-- A strictly expired row used to witness the amended C8. -/
def w8Row : SessionRow :=
  { id := "w8", userId := 8, username := "w", expiresAt := 50, createdAt := 0, updatedAt := 0 }

/-- C8, witness: a concrete strictly-expired session (`expiresAt = 50`,
lookups at `now = 100` and `now = 200`): the first `get` answers `none`
and deletes the row. -/
theorem C8_expired_get_permanent_witness :
    (authGetSession [w8Row] "w8" 100).1 = none ∧
    ((authGetSession [w8Row] "w8" 100).2.find? (fun r => r.id == "w8") = none) ∧
    (∀ db2 : SessionDb, db2.find? (fun r => r.id == "w8") = none →
      authGetSession db2 "w8" 200 = (none, db2)) :=
  C8_expired_get_permanent [w8Row] "w8" 100 200 w8Row (by decide) (by decide)

/-- C9: `delete` is idempotent and total: after a delete the token is no
longer in the table; deleting again returns the same table and reports
`false`; and deleting a token that is not present leaves the table exactly
as it was, reporting `false` — never an error. -/
theorem C9_delete_idempotent (db : SessionDb) (t : String) :
    ((dssDelete db t).1.find? (fun r => r.id == t) = none) ∧
    (dssDelete (dssDelete db t).1 t = ((dssDelete db t).1, false)) ∧
    (db.find? (fun r => r.id == t) = none → dssDelete db t = (db, false)) := by
  refine ⟨find?_filter_not _ db, ?_, ?_⟩
  · have h1 : ((db.filter (fun r => !(r.id == t))).filter (fun r => !(r.id == t)))
        = db.filter (fun r => !(r.id == t)) := by
      apply List.filter_eq_self.mpr
      intro x hx
      exact (List.mem_filter.mp hx).2
    unfold dssDelete
    rw [h1, any_filter_not]
  · intro hnone
    rw [List.find?_eq_none] at hnone
    have h1 : db.filter (fun r => !(r.id == t)) = db := by
      apply List.filter_eq_self.mpr
      intro x hx
      simpa using hnone x hx
    have h2 : db.any (fun r => r.id == t) = false := by
      cases hany : db.any (fun r => r.id == t) with
      | false => rfl
      | true =>
        rw [List.any_eq_true] at hany
        obtain ⟨x, hx, hpx⟩ := hany
        exact absurd hpx (hnone x hx)
    unfold dssDelete
    rw [h1, h2]

/-- C3: for a session that `get` finds and that is still valid
(`now ≤ expiresAt`), if the remaining lifetime is below the refresh
threshold then `getSession` returns the record with
`expiresAt = now + SESSION_DURATION` and persists that value; and in every
case, whatever row the table holds for the token after the call has an
`expiresAt` at least as large as before — repeated active `get`s can only
extend the expiry, never shorten it. -/
theorem C3_refresh_monotone (db : SessionDb) (t : String) (now : Nat) (r : SessionRow)
    (hfind : db.find? (fun r => r.id == t) = some r)
    (hval : now ≤ r.expiresAt) :
    ((r.expiresAt : Int) - (now : Int) < (SESSION_REFRESH_THRESHOLD : Int) →
      (authGetSession db t now).1
        = some { userId := r.userId, username := r.username,
                 expiresAt := now + SESSION_DURATION } ∧
      (∃ r', (authGetSession db t now).2.find? (fun r => r.id == t) = some r' ∧
             r'.expiresAt = now + SESSION_DURATION)) ∧
    (∀ r', (authGetSession db t now).2.find? (fun r => r.id == t) = some r' →
      r.expiresAt ≤ r'.expiresAt) := by
  have hnot : ¬ (r.expiresAt < now) := Nat.not_lt.mpr hval
  by_cases hth : (r.expiresAt : Int) - (now : Int) < (SESSION_REFRESH_THRESHOLD : Int)
  · have hred : authGetSession db t now
        = (some { userId := r.userId, username := r.username,
                  expiresAt := now + SESSION_DURATION },
           dssSet db t
             { userId := r.userId, username := r.username,
               expiresAt := now + SESSION_DURATION } now) := by
      simp [authGetSession, dssGet, hfind, hnot, hth]
    obtain ⟨c, hc⟩ := find?_dssSet_self db t
      { userId := r.userId, username := r.username,
        expiresAt := now + SESSION_DURATION } now
    constructor
    · intro _
      rw [hred]
      exact ⟨rfl, ⟨_, hc, rfl⟩⟩
    · intro r' hr'
      rw [hred] at hr'
      rw [hc] at hr'
      have hr'' := Option.some.inj hr'
      subst hr''
      show r.expiresAt ≤ now + SESSION_DURATION
      have hd : SESSION_REFRESH_THRESHOLD ≤ SESSION_DURATION := by decide
      omega
  · have hred : authGetSession db t now
        = (some { userId := r.userId, username := r.username, expiresAt := r.expiresAt },
           db) := by
      simp [authGetSession, dssGet, hfind, hnot, hth]
    constructor
    · intro h
      exact absurd h hth
    · intro r' hr'
      rw [hred] at hr'
      rw [hfind] at hr'
      have hr'' := Option.some.inj hr'
      subst hr''
      exact Nat.le_refl _

/-- A valid session within the refresh window used to witness C3. -/
def w3Row : SessionRow :=
  { id := "w3", userId := 3, username := "dora", expiresAt := 1000,
    createdAt := 0, updatedAt := 0 }

/-- C3, witness: a concrete session with `expiresAt = 1000` read at
`now = 500` (remaining lifetime 500 ms, far below the 24 h threshold):
`getSession` returns it refreshed to `500 + SESSION_DURATION`. -/
theorem C3_refresh_monotone_witness :
    (authGetSession [w3Row] "w3" 500).1
      = some { userId := 3, username := "dora", expiresAt := 500 + SESSION_DURATION } ∧
    (∃ r', (authGetSession [w3Row] "w3" 500).2.find? (fun r => r.id == "w3") = some r' ∧
           r'.expiresAt = 500 + SESSION_DURATION) :=
  (C3_refresh_monotone [w3Row] "w3" 500 w3Row (by decide) (by decide)).1 (by decide)

/-- C4: creating a session and immediately reading it back through
`getSession` at the same instant yields a record whose `userId` and
`username` are exactly the values passed to `createSession`, with
`expiresAt = now + SESSION_DURATION`. -/
theorem C4_create_then_get (db : SessionDb) (t : String) (userId : Nat)
    (username : String) (now : Nat) :
    (authGetSession (authCreateSession db t userId username now) t now).1
      = some { userId := userId, username := username,
               expiresAt := now + SESSION_DURATION } := by
  obtain ⟨c, hc⟩ := find?_dssSet_self db t
    { userId := userId, username := username, expiresAt := now + SESSION_DURATION } now
  have hnot : ¬ (now + SESSION_DURATION < now) := by omega
  have hth : ¬ (((now + SESSION_DURATION : Nat) : Int) - (now : Int)
      < (SESSION_REFRESH_THRESHOLD : Int)) := by
    have hd : SESSION_REFRESH_THRESHOLD ≤ SESSION_DURATION := by decide
    omega
  have hsd : ¬ (SESSION_DURATION < SESSION_REFRESH_THRESHOLD) := by decide
  simp [authGetSession, authCreateSession, dssGet, hc, hnot, hth, hsd]

/-- C9, witness: deleting a token that never existed from the empty table
returns the table unchanged with result `false`. -/
theorem C9_delete_idempotent_witness :
    dssDelete ([] : SessionDb) "ghost" = (([] : SessionDb), false) :=
  (C9_delete_idempotent [] "ghost").2.2 (by decide)

/-! The retry wrapper `withDatabaseRetry` of the routes module. -/

/-- A thrown JS `Error`, reduced to the only field the wrapper inspects. -/
structure JsError where
  message : String
deriving DecidableEq, Repr

/-- JS `String.prototype.includes`: substring test. -/
def includesSub (s pat : String) : Bool := decide (pat.toList <:+: s.toList)

/-- The wrapper's transient-failure classification:
`error.message.includes('ETIMEDOUT') || error.message.includes('ECONNRESET')`. -/
def isTransientError (e : JsError) : Bool :=
  includesSub e.message "ETIMEDOUT" || includesSub e.message "ECONNRESET"

/-- The backoff schedule `Math.min(1000 * Math.pow(2, attempt - 1), 5000)`. -/
def backoffDelay (attempt : Nat) : Nat := min (1000 * 2 ^ (attempt - 1)) 5000

/-- Outcome of the wrapper: a returned value, a thrown error, or the
`throw lastError!` fall-through after the loop, which throws `undefined`
(reachable only when `maxRetries = 0`). -/
inductive RetryResult (α : Type) where
  | success (value : α)
  | failure (error : JsError)
  | failureUndefined
deriving DecidableEq, Repr

/-- The retry loop of `withDatabaseRetry`, from iteration `attempt` with
`fuel = maxRetries - attempt + 1` iterations left.  Each attempt's outcome is
given by `op attempt`.  Returns (outcome, number of invocations of `op`,
list of backoff delays actually waited).  A failed attempt retries exactly
when the error is transient and `attempt < maxRetries`; otherwise the error
is rethrown at once. -/
def retryGo {α : Type} (op : Nat → Except JsError α) (maxRetries : Nat) :
    Nat → Nat → Option JsError → RetryResult α × Nat × List Nat
  | 0, _, lastErr =>
    (match lastErr with
     | some e => RetryResult.failure e
     | none => RetryResult.failureUndefined, 0, [])
  | fuel+1, attempt, _ =>
    match op attempt with
    | Except.ok v => (RetryResult.success v, 1, [])
    | Except.error e =>
      if isTransientError e && decide (attempt < maxRetries) then
        let rest := retryGo op maxRetries fuel (attempt+1) (some e)
        (rest.1, rest.2.1 + 1, backoffDelay attempt :: rest.2.2)
      else
        (RetryResult.failure e, 1, [])

/-- `withDatabaseRetry(operation, maxRetries)` (source default `maxRetries = 3`):
run the loop from attempt 1. -/
def withDatabaseRetry {α : Type} (op : Nat → Except JsError α) (maxRetries : Nat) :
    RetryResult α × Nat × List Nat :=
  retryGo op maxRetries maxRetries 1 none

theorem retryGo_count_le {α : Type} (op : Nat → Except JsError α) (maxRetries : Nat) :
    ∀ (fuel attempt : Nat) (lastErr : Option JsError),
      (retryGo op maxRetries fuel attempt lastErr).2.1 ≤ fuel := by
  intro fuel
  induction fuel with
  | zero => intro attempt lastErr; cases lastErr <;> simp [retryGo]
  | succ f ih =>
    intro attempt lastErr
    simp only [retryGo]
    cases op attempt with
    | ok v => simp
    | error e =>
      by_cases hc : (isTransientError e && decide (attempt < maxRetries)) = true
      · simp only [hc, if_pos]
        have := ih (attempt + 1) (some e)
        simpa using Nat.add_le_add_right this 1
      · simp only [hc, if_neg, Bool.not_eq_true]
        simp

theorem retryGo_succ_retry {α : Type} (op : Nat → Except JsError α) (m f attempt : Nat)
    (lastErr : Option JsError) (e : JsError)
    (hop : op attempt = Except.error e) (htr : isTransientError e = true)
    (hlt : attempt < m) :
    retryGo op m (f+1) attempt lastErr
      = ((retryGo op m f (attempt+1) (some e)).1,
         (retryGo op m f (attempt+1) (some e)).2.1 + 1,
         backoffDelay attempt :: (retryGo op m f (attempt+1) (some e)).2.2) := by
  simp [retryGo, hop, htr, hlt]

theorem retryGo_exhaust {α : Type} (op : Nat → Except JsError α) (maxRetries : Nat)
    (err : Nat → JsError) :
    ∀ (fuel attempt : Nat) (lastErr : Option JsError),
      1 ≤ fuel → attempt + fuel = maxRetries + 1 →
      (∀ i, attempt ≤ i → i ≤ maxRetries →
        op i = Except.error (err i) ∧ isTransientError (err i) = true) →
      retryGo op maxRetries fuel attempt lastErr
        = (RetryResult.failure (err maxRetries), fuel,
           (List.range' attempt (fuel - 1)).map backoffDelay) := by
  intro fuel
  induction fuel with
  | zero => intro attempt lastErr h1; exact absurd h1 (by omega)
  | succ f ih =>
    intro attempt lastErr _ hsum hops
    have hattle : attempt ≤ maxRetries := by omega
    obtain ⟨hop, htr⟩ := hops attempt (Nat.le_refl _) hattle
    cases f with
    | zero =>
      have hatt : attempt = maxRetries := by omega
      have hnlt : ¬ (attempt < maxRetries) := by omega
      simp only [retryGo, hop, htr, hnlt, decide_eq_true_eq, Bool.true_and,
        decide_eq_false_iff_not, not_false_iff]
      simp [hatt]
    | succ f' =>
      have hlt : attempt < maxRetries := by omega
      have hrec := ih (attempt + 1) (some (err attempt)) (by omega) (by omega)
        (fun i hi1 hi2 => hops i (by omega) hi2)
      rw [retryGo_succ_retry op maxRetries (f' + 1) attempt lastErr (err attempt) hop htr hlt,
        hrec]
      have hrange : List.range' attempt (f' + 1) = attempt :: List.range' (attempt + 1) f' :=
        List.range'_succ attempt f' 1
      simp [hrange]

/-- C5: the retry wrapper (a) propagates a non-transient first failure
immediately after exactly one invocation with no backoff wait, (b) never
invokes the operation more than `maxRetries` times, (c) under uniformly
transient failures exhausts its budget, invoking the operation exactly
`maxRetries` times, waiting `min(1000 * 2^(attempt-1), 5000)` between
attempts, and propagates the last error unchanged, and (d) an operation that
fails transiently twice and succeeds on the third attempt yields the success
value after exactly three invocations with delays `[1000, 2000]`. -/
theorem C5_retry_spec {α : Type} (op : Nat → Except JsError α) (maxRetries : Nat) :
    (∀ e : JsError, op 1 = Except.error e → isTransientError e = false →
      1 ≤ maxRetries →
      withDatabaseRetry op maxRetries = (RetryResult.failure e, 1, [])) ∧
    ((withDatabaseRetry op maxRetries).2.1 ≤ maxRetries) ∧
    (∀ err : Nat → JsError, 1 ≤ maxRetries →
      (∀ i, 1 ≤ i → i ≤ maxRetries →
        op i = Except.error (err i) ∧ isTransientError (err i) = true) →
      withDatabaseRetry op maxRetries
        = (RetryResult.failure (err maxRetries), maxRetries,
           (List.range' 1 (maxRetries - 1)).map backoffDelay)) ∧
    (∀ (v : α) (e1 e2 : JsError),
      op 1 = Except.error e1 → isTransientError e1 = true →
      op 2 = Except.error e2 → isTransientError e2 = true →
      op 3 = Except.ok v → maxRetries = 3 →
      withDatabaseRetry op maxRetries = (RetryResult.success v, 3, [1000, 2000])) := by
  refine ⟨?_, ?_, ?_, ?_⟩
  · intro e hop htr hmax
    cases maxRetries with
    | zero => exact absurd hmax (by omega)
    | succ m => simp [withDatabaseRetry, retryGo, hop, htr]
  · exact retryGo_count_le op maxRetries maxRetries 1 none
  · intro err hmax hops
    have := retryGo_exhaust op maxRetries err maxRetries 1 none (by omega) (by omega) hops
    simpa [withDatabaseRetry] using this
  · intro v e1 e2 hop1 htr1 hop2 htr2 hop3 hmax
    subst hmax
    have h3 : retryGo op 3 1 3 (some e2) = (RetryResult.success v, 1, []) := by
      have : retryGo op 3 (0 + 1) 3 (some e2) = (RetryResult.success v, 1, []) := by
        simp [retryGo, hop3]
      simpa using this
    have h2 : retryGo op 3 2 2 (some e1)
        = (RetryResult.success v, 2, [backoffDelay 2]) := by
      have : retryGo op 3 (1 + 1) 2 (some e1)
          = ((retryGo op 3 1 3 (some e2)).1, (retryGo op 3 1 3 (some e2)).2.1 + 1,
             backoffDelay 2 :: (retryGo op 3 1 3 (some e2)).2.2) := by
        simp [retryGo, hop2, htr2]
      rw [h3] at this
      simpa using this
    have h1 : withDatabaseRetry op 3
        = ((retryGo op 3 2 2 (some e1)).1, (retryGo op 3 2 2 (some e1)).2.1 + 1,
           backoffDelay 1 :: (retryGo op 3 2 2 (some e1)).2.2) := by
      show retryGo op 3 (2 + 1) 1 none = _
      simp [retryGo, hop1, htr1]
    rw [h2] at h1
    have hb1 : backoffDelay 1 = 1000 := by decide
    have hb2 : backoffDelay 2 = 2000 := by decide
    simpa [hb1, hb2] using h1

/-- A transient connection error used to witness C5. -/
def w5Err : JsError := { message := "connect ETIMEDOUT 10.0.0.1:5432" }

/-- An operation that fails transiently on its first two attempts and
succeeds on the third, used to witness C5. -/
def w5op : Nat → Except JsError Nat :=
  fun attempt => if attempt ≤ 2 then Except.error w5Err else Except.ok 42

/-- C5, witness: running the wrapper with `maxRetries = 3` on `w5op` returns
the success value `42` after exactly three invocations, having waited
`1000` then `2000` milliseconds. -/
theorem C5_retry_spec_witness :
    withDatabaseRetry w5op 3 = (RetryResult.success 42, 3, [1000, 2000]) :=
  (C5_retry_spec w5op 3).2.2.2 42 w5Err w5Err rfl (by decide)
    rfl (by decide) rfl rfl

/-! The login flow of `AuthService.login` over the `users` table. -/

/-- A row of the `users` table (shared schema). -/
structure User where
  id : Nat
  username : String
  password : String
  displayName : String
  profilePicture : Option String
  createdAt : Option Nat
  updatedAt : Option Nat
deriving DecidableEq, Repr

/-- The shape produced by `const { password, ...userWithoutPassword } = user`:
every `users` field except `password`. -/
structure UserWithoutPassword where
  id : Nat
  username : String
  displayName : String
  profilePicture : Option String
  createdAt : Option Nat
  updatedAt : Option Nat
deriving DecidableEq, Repr

/-- The `{ password, ...rest }` destructuring: drop the password field. -/
def userWithoutPassword (u : User) : UserWithoutPassword :=
  { id := u.id, username := u.username, displayName := u.displayName,
    profilePicture := u.profilePicture, createdAt := u.createdAt, updatedAt := u.updatedAt }

/-- The request body `{ username, password }` validated by `loginSchema`. -/
structure LoginRequest where
  username : String
  password : String
deriving DecidableEq, Repr

/-- `MemStorage.getUserByUsername`: first user whose `username` matches. -/
def getUserByUsername (users : List User) (username : String) : Option User :=
  users.find? (fun u => u.username == username)

/-- `AuthService.login`: look the user up by username (unknown → `null`),
verify the password against the stored hash (`bcrypt.compare`, modelled by
the `verify` parameter since bcrypt is an external library; mismatch →
`null`), then create a session and return the user without its password
field together with the session token.  The source also catches any thrown
error into `null`; the embedding is total so no catch branch arises. -/
def login (verify : String → String → Bool) (users : List User) (creds : LoginRequest)
    (db : SessionDb) (token : String) (now : Nat) :
    Option (UserWithoutPassword × String) × SessionDb :=
  match getUserByUsername users creds.username with
  | none => (none, db)
  | some user =>
    if verify creds.password user.password then
      (some (userWithoutPassword user, token),
       authCreateSession db token user.id user.username now)
    else
      (none, db)

/-- C6: `login` returns `none` (a value, not an exception) when the username
is unknown and when the password fails verification against the stored hash,
and on correct credentials returns the session token together with the
account record stripped of its password field (`userWithoutPassword`, a
shape with no password component). -/
theorem C6_login_spec (verify : String → String → Bool) (users : List User)
    (creds : LoginRequest) (db : SessionDb) (token : String) (now : Nat) :
    (getUserByUsername users creds.username = none →
      login verify users creds db token now = (none, db)) ∧
    (∀ u : User, getUserByUsername users creds.username = some u →
      verify creds.password u.password = false →
      login verify users creds db token now = (none, db)) ∧
    (∀ u : User, getUserByUsername users creds.username = some u →
      verify creds.password u.password = true →
      (login verify users creds db token now).1
        = some (userWithoutPassword u, token)) := by
  refine ⟨?_, ?_, ?_⟩
  · intro h
    simp [login, h]
  · intro u hu hv
    simp [login, hu, hv]
  · intro u hu hv
    simp [login, hu, hv]

/-- A stored account used to witness C6: the hash is modelled as the
password with a suffix, with `w6verify` as the matching verifier. -/
def w6User : User :=
  { id := 1, username := "alice", password := "hunter2hash", displayName := "Alice",
    profilePicture := none, createdAt := none, updatedAt := none }

/-- A concrete verifier standing in for `bcrypt.compare` in the C6 witness. -/
def w6verify : String → String → Bool := fun plain hash => (plain ++ "hash") == hash

/-- C6, witness: with one stored account, an unknown username yields `none`,
a wrong password yields `none`, and the correct credentials yield the
password-free account together with the session token. -/
theorem C6_login_spec_witness :
    (login w6verify [w6User] { username := "bob", password := "x" } [] "t0" 0
      = (none, [])) ∧
    (login w6verify [w6User] { username := "alice", password := "wrong" } [] "t0" 0
      = (none, [])) ∧
    ((login w6verify [w6User] { username := "alice", password := "hunter2" } [] "t0" 0).1
      = some (userWithoutPassword w6User, "t0")) :=
  ⟨(C6_login_spec w6verify [w6User] { username := "bob", password := "x" } [] "t0" 0).1
      (by decide),
   (C6_login_spec w6verify [w6User] { username := "alice", password := "wrong" } [] "t0" 0).2.1
      w6User (by decide) (by decide),
   (C6_login_spec w6verify [w6User] { username := "alice", password := "hunter2" } [] "t0" 0).2.2
      w6User (by decide) (by decide)⟩

/-! The ownership guard `DbStorage.checkCollectionOwnership`. -/

/-- A row of the `collections` table. -/
structure CollectionRow where
  id : Nat
  name : String
  description : Option String
  ctype : String
  userId : Option Nat
  createdAt : Option Nat
deriving DecidableEq, Repr

/-- A row of the `collection_owners` join table. -/
structure CollectionOwnerRow where
  id : Nat
  collectionId : Nat
  userId : Nat
  createdAt : Option Nat
deriving DecidableEq, Repr

/-- `DbStorage.checkCollectionOwnership`: select from `collection_owners`
where both `collectionId` and `userId` match, `LIMIT 1`, and return
`ownership.length > 0`. -/
def checkCollectionOwnership (owners : List CollectionOwnerRow)
    (collectionId userId : Nat) : Bool :=
  decide (0 < ((owners.filter
      (fun o => o.collectionId == collectionId && o.userId == userId)).take 1).length)

/-- C7: the ownership check returns `true` exactly when an ownership row
linking the collection and the user exists; it returns `false` — a value,
never an error — when no such row exists, and in particular when the
collection id does not exist at all in a `collections` table that the
ownership rows reference (foreign-key-consistent tables). -/
theorem C7_ownership_spec (owners : List CollectionOwnerRow) (colls : List CollectionRow)
    (collectionId userId : Nat) :
    (checkCollectionOwnership owners collectionId userId = true
      ↔ ∃ o ∈ owners, o.collectionId = collectionId ∧ o.userId = userId) ∧
    ((∀ o ∈ owners, ¬ (o.collectionId = collectionId ∧ o.userId = userId)) →
      checkCollectionOwnership owners collectionId userId = false) ∧
    ((∀ o ∈ owners, ∃ c ∈ colls, c.id = o.collectionId) →
      (∀ c ∈ colls, c.id ≠ collectionId) →
      checkCollectionOwnership owners collectionId userId = false) := by
  have hiff : checkCollectionOwnership owners collectionId userId = true
      ↔ ∃ o ∈ owners, o.collectionId = collectionId ∧ o.userId = userId := by
    unfold checkCollectionOwnership
    rw [decide_eq_true_eq]
    constructor
    · intro h
      have hne : (owners.filter
          (fun o => o.collectionId == collectionId && o.userId == userId)) ≠ [] := by
        intro hnil
        rw [hnil] at h
        simp at h
      obtain ⟨o, ho⟩ := List.exists_mem_of_ne_nil _ hne
      have := List.mem_filter.mp ho
      exact ⟨o, this.1, by simpa using this.2⟩
    · intro ⟨o, hom, ho1, ho2⟩
      have hmem : o ∈ owners.filter
          (fun o => o.collectionId == collectionId && o.userId == userId) :=
        List.mem_filter.mpr ⟨hom, by simp [ho1, ho2]⟩
      have hpos : 0 < (owners.filter
          (fun o => o.collectionId == collectionId && o.userId == userId)).length :=
        List.length_pos.mpr (List.ne_nil_of_mem hmem)
      simpa [List.length_take] using hpos
  have hfalse : (∀ o ∈ owners, ¬ (o.collectionId = collectionId ∧ o.userId = userId)) →
      checkCollectionOwnership owners collectionId userId = false := by
    intro h
    cases hc : checkCollectionOwnership owners collectionId userId with
    | false => rfl
    | true =>
      obtain ⟨o, hom, ho⟩ := hiff.mp hc
      exact absurd ho (h o hom)
  refine ⟨hiff, hfalse, ?_⟩
  intro hfk hnc
  apply hfalse
  intro o hom ⟨ho1, _⟩
  obtain ⟨c, hcm, hcid⟩ := hfk o hom
  exact hnc c hcm (hcid.trans ho1)

/-- An ownership row and a collection used to witness C7. -/
def w7Owner : CollectionOwnerRow :=
  { id := 1, collectionId := 10, userId := 5, createdAt := none }

/-- C7, witness: with a single ownership row `(collection 10, user 5)` and a
single collection `10`, the check is `true` for the linked pair, `false` for
a user with no row, and `false` for a collection id absent from the
`collections` table. -/
theorem C7_ownership_spec_witness :
    checkCollectionOwnership [w7Owner] 10 5 = true ∧
    checkCollectionOwnership [w7Owner] 10 6 = false ∧
    checkCollectionOwnership [w7Owner] 99 5 = false :=
  ⟨(C7_ownership_spec [w7Owner] [] 10 5).1.mpr ⟨w7Owner, by decide, by decide, by decide⟩,
   (C7_ownership_spec [w7Owner] [] 10 6).2.1 (by decide),
   (C7_ownership_spec [w7Owner]
      [{ id := 10, name := "c", description := none, ctype := "custom",
         userId := none, createdAt := none }] 99 5).2.2
      (by decide) (by decide)⟩

/-! The photo-like toggle of `MemStorage.toggleLikePhoto`. -/

/-- A photo record as stored by `MemStorage` (shared schema `Photo` type):
`isLiked`, `description`, `collectionId` and `uploadedAt` are nullable
columns, hence `Option`s. -/
structure Photo where
  id : Nat
  title : String
  description : Option String
  fileName : String
  fileType : String
  filePath : String
  isLiked : Option Bool
  collectionId : Option Nat
  uploadedAt : Option Nat
deriving DecidableEq, Repr

/-- The `Map<number, Photo>` held by `MemStorage`, as a partial map. -/
def PhotoMap : Type := Nat → Option Photo

/-- `Map.prototype.set`: point update. -/
def mapSet (m : PhotoMap) (id : Nat) (p : Photo) : PhotoMap :=
  fun k => if k == id then some p else m k

/-- JS boolean negation `!x` applied to a `boolean | null` value:
`!null = true`, `!b = ¬b`. -/
def jsNot : Option Bool → Bool
  | none => true
  | some b => !b

/-- `MemStorage.toggleLikePhoto`: a missing id returns `undefined` and
leaves the map alone; otherwise the photo is re-stored with
`isLiked: !photo.isLiked` (all other fields spread unchanged) and the
updated photo is returned. -/
def toggleLikePhoto (m : PhotoMap) (id : Nat) : Option Photo × PhotoMap :=
  match m id with
  | none => (none, m)
  | some photo =>
    let updated : Photo := { photo with isLiked := some (jsNot photo.isLiked) }
    (some updated, mapSet m id updated)

/-- A photo whose `isLiked` is `null`, as a photo created without an
explicit `isLiked` value. -/
def p10 : Photo :=
  { id := 1, title := "Mountain", description := none, fileName := "m.jpg",
    fileType := "image/jpeg", filePath := "/uploads/m.jpg", isLiked := none,
    collectionId := none, uploadedAt := none }

/-- A one-photo store holding `p10` under id 1. -/
def m10 : PhotoMap := fun k => if k == 1 then some p10 else none

/-- C10, counterexample: for a stored photo whose nullable `isLiked` column
is `null`, JS `!` sends `null` to `true`, so toggling twice ends at
`isLiked = false` rather than restoring the original record — double
toggling is not the identity on such a photo. -/
theorem C10_double_toggle_counterexample :
    m10 1 = some p10 ∧ p10.isLiked = none ∧
    (toggleLikePhoto (toggleLikePhoto m10 1).2 1).1 ≠ some p10 := by
  refine ⟨rfl, rfl, ?_⟩
  intro h
  have : some (jsNot (some (jsNot none))) = (none : Option Bool) :=
    congrArg Photo.isLiked (Option.some.inj h)
  simp [jsNot] at this

/-- C10 (amended): toggling a stored photo returns it with `isLiked`
replaced by the JS negation of its old value (`null ↦ true`, `b ↦ ¬b`) and
every other field unchanged, storing the same record; toggling twice
restores the original photo and the original store whenever the original
`isLiked` was a proper boolean (for a `null` value it ends at `false`);
and toggling a missing id returns `none` and leaves the store unchanged. -/
theorem toggleLikePhoto_of_some (m : PhotoMap) (id : Nat) (p : Photo)
    (hp : m id = some p) :
    toggleLikePhoto m id
      = (some { p with isLiked := some (jsNot p.isLiked) },
         mapSet m id { p with isLiked := some (jsNot p.isLiked) }) := by
  simp [toggleLikePhoto, hp]

theorem C10_toggle_like (m : PhotoMap) (id : Nat) :
    (m id = none → toggleLikePhoto m id = (none, m)) ∧
    (∀ p : Photo, m id = some p →
      (toggleLikePhoto m id).1 = some { p with isLiked := some (jsNot p.isLiked) } ∧
      (toggleLikePhoto m id).2 id = some { p with isLiked := some (jsNot p.isLiked) } ∧
      (∀ k, k ≠ id → (toggleLikePhoto m id).2 k = m k) ∧
      (∀ b : Bool, p.isLiked = some b →
        (toggleLikePhoto (toggleLikePhoto m id).2 id).1 = some p ∧
        (toggleLikePhoto (toggleLikePhoto m id).2 id).2 = m)) := by
  constructor
  · intro h
    simp [toggleLikePhoto, h]
  · intro p hp
    have ht := toggleLikePhoto_of_some m id p hp
    refine ⟨by rw [ht], by rw [ht]; simp [mapSet], ?_, ?_⟩
    · intro k hk
      rw [ht]
      simp [mapSet, hk]
    · intro b hb
      have ht2 := toggleLikePhoto_of_some ((toggleLikePhoto m id).2) id
        { p with isLiked := some (jsNot p.isLiked) } (by rw [ht]; simp [mapSet])
      have hrec : ({ p with isLiked := some (jsNot (some (jsNot p.isLiked))) } : Photo)
          = p := by
        rw [hb]
        show ({ p with isLiked := some (!(!b)) } : Photo) = p
        rw [Bool.not_not, ← hb]
      constructor
      · rw [ht2]
        show some ({ p with isLiked := some (jsNot (some (jsNot p.isLiked))) } : Photo)
          = some p
        rw [hrec]
      · rw [ht2]
        show mapSet ((toggleLikePhoto m id).2) id
            ({ p with isLiked := some (jsNot (some (jsNot p.isLiked))) } : Photo) = m
        rw [hrec, ht]
        funext k
        by_cases hk : k = id
        · subst hk
          simp [mapSet, hp]
        · simp [mapSet, hk]

/-- A stored photo with `isLiked = false` used to witness the amended C10. -/
def w10 : Photo :=
  { id := 2, title := "Lake", description := none, fileName := "l.jpg",
    fileType := "image/jpeg", filePath := "/uploads/l.jpg", isLiked := some false,
    collectionId := none, uploadedAt := none }

/-- A one-photo store holding `w10` under id 2. -/
def w10Map : PhotoMap := fun k => if k == 2 then some w10 else none

/-- C10, witness: toggling photo 2 (with `isLiked = false`) returns it
liked, and toggling twice restores both the photo and the store. -/
theorem C10_toggle_like_witness :
    (toggleLikePhoto w10Map 2).1 = some { w10 with isLiked := some true } ∧
    (toggleLikePhoto (toggleLikePhoto w10Map 2).2 2).1 = some w10 ∧
    (toggleLikePhoto (toggleLikePhoto w10Map 2).2 2).2 = w10Map := by
  have h := (C10_toggle_like w10Map 2).2 w10 rfl
  have hd := h.2.2.2 false rfl
  exact ⟨h.1, hd.1, hd.2⟩

end Memri
